import Mathlib

/-!
Verification of the package-installer skill: a shallow embedding of
`security_checker.py`, `package_installer.py` and `environment_manager.py`
(the `SecurityChecker`, `PackageInstaller` and `EnvironmentManager` classes),
with theorems settling the specification claims about them.

External effects (HTTP registry fetches, subprocess invocations, the console
confirmation prompt, the wall clock and the filesystem) are modelled as
oracles carried in an environment record; the functions themselves are
word-for-word translations of the Python control flow.  Python exceptions are
modelled with `Except`: a function whose body sits inside a `try` block that
catches everything is total, a function that can raise returns `Except`.
-/

/-- Whether `as` is a prefix of `bs` (character lists). -/
def isPrefixL : List Char → List Char → Bool
  | [], _ => true
  | _ :: _, [] => false
  | a :: as, b :: bs => a = b && isPrefixL as bs

/-- Python `s.startswith(p)`. -/
def startsWithStr (s p : String) : Bool :=
  isPrefixL p.data s.data

/-- Python `s.endswith(p)`. -/
def endsWithStr (s p : String) : Bool :=
  isPrefixL p.data.reverse s.data.reverse

/-- Whether `needle` occurs as a contiguous sublist of `hay`. -/
def containsL (needle : List Char) : List Char → Bool
  | [] => needle.isEmpty
  | c :: rest => isPrefixL needle (c :: rest) || containsL needle rest

/-- Python `needle in hay` (substring containment). -/
def strContains (hay needle : String) : Bool :=
  containsL needle.data hay.data

/-- Python `s.lower()` (ASCII; all inputs of interest are ASCII). -/
def lowerStr (s : String) : String :=
  String.mk (s.data.map Char.toLower)

/-- Python `s[n:]`. -/
def dropStr (s : String) (n : Nat) : String :=
  String.mk (s.data.drop n)

/-- Whitespace stripped by Python `str.strip()` (the ASCII ones). -/
def isSpacePy (c : Char) : Bool :=
  c = ' ' || c = '\t' || c = '\n' || c = '\r'

/-- Python `s.strip()`. -/
def trimStr (s : String) : String :=
  String.mk (((s.data.dropWhile isSpacePy).reverse.dropWhile isSpacePy).reverse)

/-- Split a character list on a separator character, Python `split(sep)`
semantics (`"".split(sep) = [""]`). -/
def splitOnChar (c : Char) : List Char → List (List Char)
  | [] => [[]]
  | x :: xs =>
    let rest := splitOnChar c xs
    if x = c then [] :: rest
    else
      match rest with
      | g :: gs => (x :: g) :: gs
      | [] => [[x]]

/-- Python `s.split(c)` for a one-character separator. -/
def splitChar (c : Char) (s : String) : List String :=
  (splitOnChar c s.data).map String.mk

/-- Digits-only decimal value of a character list, `none` if empty or not
all digits. -/
def natOfDigits (cs : List Char) : Option Nat :=
  if cs.isEmpty then none
  else if cs.all Char.isDigit then
    some (cs.foldl (fun a c => a * 10 + (c.toNat - 48)) 0)
  else none

/-- Python `int(s)`: optional surrounding whitespace, optional sign, digits.
Returns `none` where Python raises `ValueError`. -/
def parseIntPy (s : String) : Option Int :=
  let t := trimStr s
  if startsWithStr t "-" then
    match natOfDigits (t.data.drop 1) with
    | some n => some (-(n : Int))
    | none => none
  else
    let u := if startsWithStr t "+" then t.data.drop 1 else t.data
    match natOfDigits u with
    | some n => some (n : Int)
    | none => none

/-- A valid URL scheme per `urllib.parse`: a letter followed by
letters, digits, `+`, `-` or `.`. -/
def validScheme (cs : List Char) : Bool :=
  match cs with
  | [] => false
  | c :: rest => c.isAlpha && rest.all (fun ch => ch.isAlphanum || ch = '+' || ch = '-' || ch = '.')

/-- Python `urlparse(s).netloc`: the authority component, present only when `//`
follows a valid `scheme:` or starts the string; empty otherwise. -/
def netlocOf (s : String) : String :=
  let cs := s.data
  let afterScheme :=
    match cs.span (fun c => c ≠ ':') with
    | (pre, ':' :: rest) => if validScheme pre then rest else cs
    | _ => cs
  match afterScheme with
  | '/' :: '/' :: rest =>
      String.mk (rest.takeWhile (fun c => c ≠ '/' && c ≠ '?' && c ≠ '#'))
  | _ => ""

/-- One trailing newline removed, if present.  A final `$` in a Python
regex matches at the end of the string or just before one terminal newline;
since no character class of the two patterns below can consume a newline,
`re.match(p + r'$', s)` succeeds exactly when the core pattern matches the
string with one trailing newline stripped. -/
def dropTrailNl (cs : List Char) : List Char :=
  if cs.getLast? = some '\n' then cs.dropLast else cs

/-- Python `re.match(r'^[a-zA-Z][a-zA-Z0-9_-]*$', name)` from `_basic_validation`. -/
def matchIdentRe (name : String) : Bool :=
  match dropTrailNl name.data with
  | [] => false
  | c :: rest => c.isAlpha && rest.all (fun ch => ch.isAlphanum || ch = '_' || ch = '-')

/-- Python `re.match(r'^\d+\.\d+\.\d+([a-zA-Z0-9]+)?$', version)` from
`_is_valid_version`. -/
def matchVersionRe (s : String) : Bool :=
  let cs := dropTrailNl s.data
  let (d1, r1) := cs.span Char.isDigit
  if d1.isEmpty then false
  else
    match r1 with
    | '.' :: r2 =>
      let (d2, r3) := r2.span Char.isDigit
      if d2.isEmpty then false
      else
        match r3 with
        | '.' :: r4 =>
          let (d3, r5) := r4.span Char.isDigit
          if d3.isEmpty then false else r5.all Char.isAlphanum
        | _ => false
    | _ => false

/-- Gregorian leap year. -/
def isLeap (y : Nat) : Bool :=
  (y % 4 = 0 && y % 100 ≠ 0) || y % 400 = 0

/-- Days in a month of the Gregorian calendar. -/
def daysInMonth (y m : Nat) : Nat :=
  if m = 2 then (if isLeap y then 29 else 28)
  else if m = 4 || m = 6 || m = 9 || m = 11 then 30
  else 31

/-- Days between the given proleptic-Gregorian civil date and 1970-01-01. -/
def daysFromCivil (y m d : Nat) : Int :=
  let yy : Int := (y : Int) - (if m ≤ 2 then 1 else 0)
  let era : Int := Int.fdiv yy 400
  let yoe : Int := yy - era * 400
  let mp : Int := ((m : Int) + 9) % 12
  let doy : Int := (153 * mp + 2) / 5 + (d : Int) - 1
  let doe : Int := yoe * 365 + Int.fdiv yoe 4 - Int.fdiv yoe 100 + doy
  era * 146097 + doe - 719468

/-- Python `datetime.strptime(s, "%Y-%m-%dT%H:%M:%S")`, as seconds since the epoch;
`none` where Python raises `ValueError`. -/
def parseTimestamp (s : String) : Option Int :=
  match splitChar 'T' s with
  | [d, t] =>
    match splitChar '-' d, splitChar ':' t with
    | [ys, ms, ds], [hs, mins, ss] =>
      match natOfDigits ys.data, natOfDigits ms.data, natOfDigits ds.data,
            natOfDigits hs.data, natOfDigits mins.data, natOfDigits ss.data with
      | some y, some mo, some da, some h, some mi, some se =>
        if 1 ≤ mo && mo ≤ 12 && 1 ≤ da && da ≤ daysInMonth y mo
            && h ≤ 23 && mi ≤ 59 && se ≤ 59 then
          some (daysFromCivil y mo da * 86400 + (h : Int) * 3600 + (mi : Int) * 60 + (se : Int))
        else none
      | _, _, _, _, _, _ => none
    | _, _ => none
  | _ => none

/-- One entry of the registry's top-level `urls` array (§6 of the registry
metadata contract). `none` models a JSON `null` value. -/
structure UrlInfo where
  filename : Option String
  packagetype : Option String
  size : Option Nat
  upload_time : Option String
  url : Option String
deriving DecidableEq, Repr

/-- The registry's `info` object. `none` models a JSON `null` value. -/
structure PyPIInfo where
  name : Option String
  version : Option String
  summary : Option String
  description : Option String
  author : Option String
  license : Option String
  upload_time : Option String
  downloads : Option Int
  requires_dist : List String
  project_urls : List (String × String)
  home_page : Option String
deriving DecidableEq, Repr

/-- A parsed registry JSON document. -/
structure PyPIData where
  info : PyPIInfo
  urls : List UrlInfo
deriving DecidableEq, Repr

/-- Outcome of `requests.get` on a registry URL: either the call raised, or it
returned a status code and (parsed) body. -/
inductive HttpResult where
  | exn (msg : String)
  | resp (statusCode : Nat) (data : PyPIData)

/-- External world of `SecurityChecker`: the registry keyed by
(package, optional version) — the two URL shapes the checker builds — and the
current time for `datetime.now()`. -/
structure SEnv where
  fetch : String → Option String → HttpResult
  nowSec : Int

/-- Python truthiness of an optional string: `None` and `""` are falsy. -/
def falsyStr (o : Option String) : Bool :=
  o.getD "" = ""

/-- The version component of the registry URL: present only when the caller
passed a truthy version string (`if version:` in every checker method). -/
def verKey (v : Option String) : Option String :=
  match v with
  | some s => if s = "" then none else some s
  | none => none

/-- One per-check result dict. `warnings = none` models a dict built without
a `"warnings"` key (as `_basic_validation` does); reading it then raises
`KeyError`. -/
structure CheckResult where
  status : String
  issues : List String
  warnings : Option (List String)
  details : List (String × String)
deriving DecidableEq, Repr

/-- The fresh result dict shared by checks 2-9: `PASS`, empty issue and
warning lists. -/
def initCheck : CheckResult :=
  { status := "PASS", issues := [], warnings := some [], details := [] }

/-- Embeds `SecurityChecker.malicious_patterns`. (The source closes this list
literal with a stray brace; the intended list is modelled.) -/
def malicious_patterns : List String :=
  ["hack", "crack", "steal", "password", "keylog", "spy",
   "trojan", "malware", "virus", "backdoor", "rootkit"]

/-- Embeds `SecurityChecker.suspicious_extensions`. -/
def suspicious_extensions : List String :=
  [".exe", ".dll", ".so", ".dylib", ".app", ".scr", ".bat", ".cmd", ".ps1"]

/-- Embeds `SecurityChecker._is_valid_version`. -/
def is_valid_version (version : String) : Bool :=
  let v := if ["==", "!=", "<=", ">=", "~=", "==="].any (fun p => startsWithStr version p)
           then dropStr version 2 else version
  if matchVersionRe v then true
  else (splitChar '.' v).all (fun part =>
    (part ≠ "" && part.data.all Char.isDigit) || (part ≠ "" && part.data.all Char.isAlpha))

/-- The `zip`-and-compare loop of `_is_version_older`, followed by the final
length comparison on the unconsumed remainders. -/
def olderLoop : List Int → List Int → Bool
  | a :: as, b :: bs => if a < b then true else if a > b then false else olderLoop as bs
  | as, bs => as.length < bs.length

/-- Embeds `SecurityChecker._is_version_older`: parse both dotted version strings as
integer lists, compare componentwise; any parse failure is swallowed by the
`except` clause and yields `False`. -/
def is_version_older (version threshold : String) : Bool :=
  match (splitChar '.' version).mapM parseIntPy, (splitChar '.' threshold).mapM parseIntPy with
  | some vp, some tp => olderLoop vp tp
  | _, _ => false

/-- Embeds `SecurityChecker._basic_validation`.  The method has no internal
`try`/`except`; for a *truthy* version (`if version and not
self._is_valid_version(version)`) that fails validation, it does
`result["warnings"].append(...)` on a dict created without a `"warnings"`
key, so it raises `KeyError` (modelled as `Except.error`); an absent or
empty version skips the check entirely. -/
def basic_validation (package_name : String) (version : Option String) :
    Except String CheckResult :=
  let st := "PASS"
  let iss : List String := []
  let (st, iss) :=
    if ¬ matchIdentRe package_name then
      ("FAIL", iss ++ ["Package name contains invalid characters"])
    else (st, iss)
  let (st, iss) := malicious_patterns.foldl
    (fun acc p =>
      if strContains (lowerStr package_name) p then
        ("FAIL", acc.2 ++ ["Package name matches suspicious pattern: " ++ p])
      else acc)
    (st, iss)
  match version with
  | some v =>
    if v ≠ "" ∧ ¬ is_valid_version v then Except.error "KeyError: \x27warnings\x27"
    else Except.ok
      { status := st, issues := iss, warnings := none,
        details := [("name_format", if st = "PASS" then "VALID" else "INVALID"),
                    ("suspicious_patterns", toString iss.length)] }
  | none => Except.ok
      { status := st, issues := iss, warnings := none,
        details := [("name_format", if st = "PASS" then "VALID" else "INVALID"),
                    ("suspicious_patterns", toString iss.length)] }

/-- Embeds `SecurityChecker._check_package_metadata`. -/
def check_package_metadata (env : SEnv) (package_name : String) (version : Option String) :
    CheckResult :=
  match env.fetch package_name (verKey version) with
  | HttpResult.exn e =>
    { initCheck with status := "FAIL", issues := ["Failed to retrieve metadata: " ++ e] }
  | HttpResult.resp code data =>
    if code ≠ 200 then
      { initCheck with
        status := "FAIL"
        issues := ["Package not found in PyPI: HTTP " ++ toString code] }
    else
      let info := data.info
      let st := "PASS"
      let iss : List String := []
      let (st, iss) :=
        if falsyStr info.name then ("FAIL", iss ++ ["Package has no name in metadata"])
        else (st, iss)
      let (st, iss) :=
        if falsyStr info.version then ("FAIL", iss ++ ["Package has no version in metadata"])
        else (st, iss)
      match info.summary, info.description with
      | some sm, some de =>
        let summary := lowerStr sm
        let descr := lowerStr de
        let ws := malicious_patterns.foldl
          (fun acc p =>
            if strContains summary p || strContains descr p then
              acc ++ ["Suspicious keyword in metadata: " ++ p]
            else acc) []
        let ws :=
          if falsyStr info.author || info.author = some "Unknown" then
            ws ++ ["Missing or unknown author information"]
          else ws
        let ws :=
          if falsyStr info.license then ws ++ ["No license information available"]
          else if strContains (lowerStr (info.license.getD "")) "unknown" then
            ws ++ ["License marked as unknown"]
          else ws
        { status := st, issues := iss, warnings := some ws,
          details := [("has_metadata", "True"),
                      ("author", if falsyStr info.author then "Unknown" else info.author.getD ""),
                      ("license", if falsyStr info.license then "Unknown" else info.license.getD ""),
                      ("summary", sm)] }
      | _, _ =>
        -- a JSON-null summary or description makes `None.lower()` raise
        -- `AttributeError` inside the method body; its `except` keeps the
        -- issues found so far and turns the check `FAIL`
        { status := "FAIL"
          issues := iss ++
            ["Failed to retrieve metadata: \x27NoneType\x27 object has no attribute \x27lower\x27"]
          warnings := some []
          details := [] }

/-- Domains `pypi.org` and `files.pythonhosted.org`, the trusted-domain allowlist of
`_check_download_urls`. -/
def trusted_domains : List String :=
  ["pypi.org", "files.pythonhosted.org"]

/-- The artifact loop of `_check_download_urls`.  The loop body assigns the
artifact's `upload_time` field to `download_url` and parses *that* with
`urlparse`; a null `upload_time` makes `urlparse(None)` raise `TypeError`,
and a null `size` makes the `None > 100MB` comparison raise `TypeError`
after the domain warning was already appended (third component `some msg`,
keeping the warnings accumulated so far). -/
def dlLoop : List UrlInfo → List String → Nat → (List String × Nat × Option String)
  | [], ws, susp => (ws, susp, none)
  | u :: rest, ws, susp =>
    match u.upload_time with
    | none => (ws, susp, some "TypeError: expected string or bytes-like object")
    | some du =>
      let domain := lowerStr (netlocOf du)
      let (ws, susp) :=
        if ¬ trusted_domains.contains domain then
          (ws ++ ["Untrusted domain: " ++ domain], susp + 1)
        else (ws, susp)
      match u.size with
      | none =>
        (ws, susp,
         some "TypeError: \x27>\x27 not supported between instances of \x27NoneType\x27 and \x27int\x27")
      | some sz =>
        let ws :=
          if sz > 100 * 1024 * 1024 then
            ws ++ ["Large package size: " ++ toString sz ++ " bytes"]
          else ws
        dlLoop rest ws susp

/-- Embeds `SecurityChecker._check_download_urls`. -/
def check_download_urls (env : SEnv) (package_name : String) (version : Option String) :
    CheckResult :=
  match env.fetch package_name (verKey version) with
  | HttpResult.exn e =>
    { initCheck with status := "FAIL", issues := ["Failed to check download URLs: " ++ e] }
  | HttpResult.resp code data =>
    if code ≠ 200 then initCheck
    else
      match dlLoop data.urls [] 0 with
      | (ws, _, some e) =>
        { status := "FAIL", issues := ["Failed to check download URLs: " ++ e],
          warnings := some ws, details := [] }
      | (ws, susp, none) =>
        { status := if susp > 0 then "WARNING" else "PASS", issues := [],
          warnings := some ws,
          details := [("total_urls", toString data.urls.length),
                      ("suspicious_urls", toString susp)] }

/-- The artifact loop of `_check_file_types`.  The binary-artifact-type
count is incremented before the extension scan, so a null `filename`
(whose `None.lower()` raises `AttributeError`, last component `some msg`)
still registers a preceding `bdist` artifact; warnings accumulated so far
are kept. -/
def ftLoop : List UrlInfo → Nat → Nat → List String → (Nat × Nat × List String × Option String)
  | [], bin, susp, ws => (bin, susp, ws, none)
  | u :: rest, bin, susp, ws =>
    let ftype := u.packagetype.getD ""
    let bin := if ftype = "bdist_dumb" || ftype = "bdist_wininst" then bin + 1 else bin
    match u.filename with
    | none =>
      (bin, susp, ws, some "AttributeError: \x27NoneType\x27 object has no attribute \x27lower\x27")
    | some fn =>
      let (susp, ws) := suspicious_extensions.foldl
        (fun (a : Nat × List String) ext =>
          if endsWithStr (lowerStr fn) ext then
            (a.1 + 1, a.2 ++ ["Suspicious file extension: " ++ ext])
          else a)
        (susp, ws)
      ftLoop rest bin susp ws

/-- Embeds `SecurityChecker._check_file_types`. -/
def check_file_types (env : SEnv) (package_name : String) (version : Option String) :
    CheckResult :=
  match env.fetch package_name (verKey version) with
  | HttpResult.exn e =>
    { initCheck with status := "FAIL", issues := ["Failed to check file types: " ++ e] }
  | HttpResult.resp code data =>
    if code ≠ 200 then initCheck
    else
      match ftLoop data.urls 0 0 [] with
      | (_, _, ws, some e) =>
        { status := "FAIL", issues := ["Failed to check file types: " ++ e],
          warnings := some ws, details := [] }
      | (bin, susp, ws, none) =>
        { status := if susp > 0 then "WARNING" else "PASS", issues := [],
          warnings := some ws,
          details := [("binary_files", toString bin), ("suspicious_files", toString susp)] }

/-- Embeds `SecurityChecker._check_dependencies`. -/
def check_dependencies (env : SEnv) (package_name : String) (version : Option String) :
    CheckResult :=
  match env.fetch package_name (verKey version) with
  | HttpResult.exn e =>
    { initCheck with status := "FAIL", issues := ["Failed to check dependencies: " ++ e] }
  | HttpResult.resp code data =>
    if code ≠ 200 then initCheck
    else
      let requires_dist := data.info.requires_dist
      if requires_dist = [] then
        { initCheck with details := [("has_dependencies", "False")] }
      else
        let (susp, ws) := requires_dist.foldl
          (fun (acc : Nat × List String) dep =>
            match malicious_patterns.find? (fun p => strContains (lowerStr dep) p) with
            | some _ => (acc.1 + 1, acc.2 ++ ["Suspicious dependency: " ++ dep])
            | none => acc)
          (0, [])
        { status := if susp > 0 then "WARNING" else "PASS", issues := [],
          warnings := some ws,
          details := [("has_dependencies", "True"),
                      ("dependency_count", toString requires_dist.length),
                      ("suspicious_dependencies", toString susp)] }

/-- Embeds `SecurityChecker._check_package_age_and_popularity` (always fetches the
version-less URL). -/
def check_package_age_and_popularity (env : SEnv) (package_name : String) : CheckResult :=
  match env.fetch package_name none with
  | HttpResult.exn e =>
    { initCheck with
      status := "FAIL"
      issues := ["Failed to check age and popularity: " ++ e] }
  | HttpResult.resp code data =>
    if code ≠ 200 then initCheck
    else
      let info := data.info
      let afterAge : Except String (String × List String × List (String × String)) :=
        match info.upload_time with
        | some s =>
          match parseTimestamp s with
          | none => Except.error
              ("Failed to check age and popularity: time data " ++ s ++
               " does not match format")
          | some ts =>
            let days := Int.fdiv (env.nowSec - ts) 86400
            let det := [("days_old", toString days), ("upload_time", s)]
            if days < 7 then
              Except.ok ("WARNING", ["Package created less than 7 days ago"], det)
            else if days < 30 then
              Except.ok ("PASS", ["Package created less than 30 days ago"], det)
            else Except.ok ("PASS", [], det)
        | none => Except.ok ("PASS", [], [])
      match afterAge with
      | Except.error e => { initCheck with status := "FAIL", issues := [e] }
      | Except.ok (st, ws, det) =>
        match info.downloads with
        | none =>
          -- the details entry is assigned first, then `None == 0` is `False`
          -- and `None < 100` raises `TypeError`; the `except` keeps the age
          -- warnings already recorded and turns the check `FAIL`
          { status := "FAIL"
            issues := ["Failed to check age and popularity: \x27<\x27 not supported between instances of \x27NoneType\x27 and \x27int\x27"]
            warnings := some ws
            details := det ++ [("downloads", "None")] }
        | some downloads =>
          let det := det ++ [("downloads", toString downloads)]
          let ws :=
            if downloads = 0 then ws ++ ["Package has no downloads"]
            else if downloads < 100 then ws ++ ["Package has very few downloads"]
            else ws
          { status := st, issues := [], warnings := some ws, details := det }

/-- The static vulnerable-package table of `_check_known_vulnerabilities`:
each value is the list of constraint strings, of which the code reads
element `[0]`. -/
def vulnerable_packages : List (String × List String) :=
  [("requests", ["<2.25.0"]), ("django", ["<3.2.0"]),
   ("flask", ["<2.0.0"]), ("sqlalchemy", ["<1.4.0"])]

/-- Embeds `SecurityChecker._check_known_vulnerabilities`. -/
def check_known_vulnerabilities (package_name : String) (version : Option String) :
    CheckResult :=
  let base := { initCheck with details := [("vulnerability_check", "SIMPLIFIED")] }
  match vulnerable_packages.lookup (lowerStr package_name), version with
  | some ths, some ver =>
    if ver ≠ "" && is_version_older ver (ths.headD "") then
      { base with
        status := "FAIL"
        issues := ["Package has known vulnerabilities in this version"] }
    else base
  | _, _ => base

/-- Embeds `SecurityChecker._check_license`. -/
def check_license (env : SEnv) (package_name : String) (version : Option String) :
    CheckResult :=
  match env.fetch package_name (verKey version) with
  | HttpResult.exn e =>
    { initCheck with status := "FAIL", issues := ["Failed to check license: " ++ e] }
  | HttpResult.resp code data =>
    if code ≠ 200 then initCheck
    else
      match data.info.license with
      | none =>
        -- the `license` detail (`None or "Unknown"`) is assigned first, then
        -- `"unknown" in None.lower()` raises `AttributeError` and the
        -- `except` turns the check `FAIL`
        { status := "FAIL"
          issues := ["Failed to check license: \x27NoneType\x27 object has no attribute \x27lower\x27"]
          warnings := some []
          details := [("license", "Unknown")] }
      | some license_info =>
        let ws :=
          if strContains (lowerStr license_info) "unknown" then ["License marked as unknown"]
          else []
        let ltype :=
          if ["MIT", "Apache", "BSD", "GPL"].any
              (fun p => strContains (lowerStr license_info) (lowerStr p)) then
            "PERMISSIVE"
          else "UNKNOWN"
        { status := "PASS", issues := [], warnings := some ws,
          details := [("license", if license_info = "" then "Unknown" else license_info),
                      ("license_type", ltype)] }

/-- Embeds `SecurityChecker._check_source_code_integrity`. -/
def check_source_code_integrity (env : SEnv) (package_name : String) (version : Option String) :
    CheckResult :=
  match env.fetch package_name (verKey version) with
  | HttpResult.exn e =>
    { initCheck with status := "FAIL", issues := ["Failed to check source code: " ++ e] }
  | HttpResult.resp code data =>
    if code ≠ 200 then initCheck
    else
      let source_url := (data.info.project_urls.find?
        (fun kv => strContains (lowerStr kv.1) "source" || strContains (lowerStr kv.2) "github")).map
        Prod.snd
      let ws := if source_url.isNone then ["Source code URL not available"] else []
      { status := "PASS", issues := [], warnings := some ws,
        details := [("has_source_code", if source_url.isSome then "True" else "False"),
                    ("source_url", source_url.getD "Not available")] }

/-- The safety report dict built by `check_package_safety`. -/
structure Report where
  package : String
  version : String
  overall_status : String
  checks : List (String × CheckResult)
  recommendations : List String
  critical_issues : List String
  warnings : List String
  score : Int
deriving DecidableEq, Repr

/-- The report as initialised at the top of `check_package_safety`. -/
def initReport (package_name : String) (version : Option String) : Report :=
  { package := package_name,
    version := match version with
               | some s => if s = "" then "latest" else s
               | none => "latest",
    overall_status := "SAFE", checks := [], recommendations := [],
    critical_issues := [], warnings := [], score := 100 }

/-- Embeds `SecurityChecker._update_score`.  On a `WARNING` check it decrements the
score and then reads `check_result["warnings"]`; if that key is absent the
read raises `KeyError` with the score already decremented (the error carries
the mutated report). -/
def update_score (r : Report) (c : CheckResult) : Except (Report × String) Report :=
  if c.status = "FAIL" then
    Except.ok { r with score := r.score - 20, critical_issues := r.critical_issues ++ c.issues }
  else if c.status = "WARNING" then
    match c.warnings with
    | some ws => Except.ok { r with score := r.score - 10, warnings := r.warnings ++ ws }
    | none => Except.error ({ r with score := r.score - 10 }, "KeyError: \x27warnings\x27")
  else Except.ok r

/-- One numbered step of `check_package_safety`: store the check result under
its name, then `_update_score`. -/
def record (r : Report) (nm : String) (c : CheckResult) : Except (Report × String) Report :=
  update_score { r with checks := r.checks ++ [(nm, c)] } c

/-- The sequential check battery inside the outer `try` of
`check_package_safety`: an `Except.error` entry is a check call that raised;
processing stops at the first raise, returning the report as mutated so far
together with the exception text. -/
def runChecks : Report → List (String × Except String CheckResult) → Report × Option String
  | r, [] => (r, none)
  | r, (_, Except.error e) :: _ => (r, some e)
  | r, (nm, Except.ok c) :: rest =>
    match record r nm c with
    | Except.ok r2 => runChecks r2 rest
    | Except.error (r2, e) => (r2, some e)

/-- The nine checks of `check_package_safety`, in source order with their
report keys. -/
def checkList (env : SEnv) (n : String) (v : Option String) :
    List (String × Except String CheckResult) :=
  [("basic_validation", basic_validation n v),
   ("metadata", Except.ok (check_package_metadata env n v)),
   ("download_urls", Except.ok (check_download_urls env n v)),
   ("file_types", Except.ok (check_file_types env n v)),
   ("dependencies", Except.ok (check_dependencies env n v)),
   ("age_popularity", Except.ok (check_package_age_and_popularity env n)),
   ("vulnerabilities", Except.ok (check_known_vulnerabilities n v)),
   ("license", Except.ok (check_license env n v)),
   ("source_code", Except.ok (check_source_code_integrity env n v))]

/-- Embeds `SecurityChecker._generate_recommendations`.  Its `WARNING` branch
executes `safety_review.append(...)` on an undefined name, i.e. raises
`NameError` (modelled as `Except.error`); it runs outside the `try` of
`check_package_safety`, so that error would propagate to the caller. -/
def generate_recommendations (r : Report) : Except String Report :=
  if r.overall_status = "FAIL" then
    Except.ok { r with recommendations :=
      r.recommendations ++ ["DO NOT INSTALL - Critical security issues found"] }
  else if r.overall_status = "WARNING" then
    Except.error "NameError: name \x27safety_review\x27 is not defined"
  else
    let r := if r.score < 80 then
      { r with recommendations := r.recommendations ++ ["Exercise caution - multiple warnings detected"] }
      else r
    let r := if r.warnings.any (fun w => strContains (lowerStr w) "suspicious") then
      { r with recommendations := r.recommendations ++ ["Strongly recommend manual review of source code"] }
      else r
    Except.ok r

/-- Embeds `SecurityChecker.check_package_safety`: run the battery inside the outer
`try` (an escaping exception sets `overall_status = "CHECK_FAILED"` and
records the exception text, keeping the report as mutated so far), then
generate recommendations. -/
def check_package_safety (env : SEnv) (package_name : String) (version : Option String) :
    Except String Report :=
  let (r, err) := runChecks (initReport package_name version) (checkList env package_name version)
  let r := match err with
    | none => r
    | some e =>
      { r with overall_status := "CHECK_FAILED",
               critical_issues := r.critical_issues ++ ["Security check failed: " ++ e] }
  generate_recommendations r

/-- The report keys of the nine checks, in battery order. -/
def checkNames : List String :=
  ["basic_validation", "metadata", "download_urls", "file_types", "dependencies",
   "age_popularity", "vulnerabilities", "license", "source_code"]

/-- Number of checks in a report with the given per-check status string. -/
def countStatus (st : String) (cs : List (String × CheckResult)) : Nat :=
  (cs.filter (fun c => c.2.status = st)).length

/-- The package-info dict built by `PackageInstaller._get_package_info`. -/
structure PackageInfo where
  name : String
  version : String
  description : String
  author : String
  license : String
  last_updated : String
  size : String
  dependencies : List String
  downloads : Int
  home_page : String
deriving DecidableEq, Repr

/-- One line of the append-only audit log, as built by
`PackageInstaller._log_installation`. -/
structure LogRecord where
  timestamp : String
  package : PackageInfo
  success : Bool
  error : Option String
  environment : String
deriving DecidableEq, Repr

/-- Outcome of a `subprocess.run` invocation of the package manager. -/
inductive PipOutcome where
  | exit (code : Int) (stderr : String)
  | timeout
  | exn (msg : String)
deriving DecidableEq, Repr

/-- Observable external actions of the installer and environment manager.
`securityCheck` stands for an invocation of
`SecurityChecker.check_package_safety`: the constructor exists so theorems
can state whether the installer ever performs one. -/
inductive Event where
  | pipShow (env pkg : String)
  | pipInstall (env pkg : String)
  | pipUninstall (env pkg : String)
  | pipBootstrap (env : String)
  | venvCreate (env : String)
  | rmtree (env : String)
  | advisoryCheck (pkg : String)
  | securityCheck (pkg : String)
  | logAppend (rec : LogRecord)
deriving DecidableEq, Repr

/-- Mutable facts about the machine: which environment directories exist and
which packages each environment's package manager reports as installed
(`pip show` exits 0 exactly for members of `installed`). -/
structure SysState where
  envs : List String
  installed : List (String × String)
deriving DecidableEq, Repr

/-- External world of the installer: the registry (keyed by package name, the
only URL shape `_get_package_info` builds), the clock, the log timestamp, the
console `input()` line, and the outcomes of subprocess calls. -/
structure IWorld where
  fetch : String → HttpResult
  nowSec : Int
  timestamp : String
  response : String
  pipInstall : String → String → Option String → PipOutcome
  pipUninstall : String → String → PipOutcome
  showVersion : String → String → Option String
  venvCreateExn : String → Option String
  pyExists : String → Bool
  pythonProbe : String → String → Bool
  rmtreeExn : String → Option String
  logWriteOk : Bool

/-- Result of one installer / environment-manager operation: the
`(success, message)` pair the Python method returns, the machine state
afterwards, and the external actions performed. -/
abbrev OpResult := (Bool × String) × SysState × List Event

/-- The default environment name hardcoded throughout `package_installer.py`. -/
def defaultEnvName : String := "venv_ninja_moltbot"

/-- Embeds `EnvironmentManager.find_python_executable`: builds candidate executable
names (raising `IndexError` when the requested version string has no dot,
since it indexes `version.split('.')[1]`) and probes each with a
`--version` subprocess. -/
def find_python_executable (w : IWorld) (version : String) : Except String (Option String) :=
  match splitChar '.' version with
  | maj :: minr :: _ =>
    Except.ok ((["python" ++ version, "python" ++ maj ++ "." ++ minr,
                 "python" ++ maj, "python"]).find?
      (fun nm => w.pythonProbe nm version))
  | _ => Except.error "list index out of range"

/-- Tail of `EnvironmentManager.create_environment` after the environment
tree was created: verify the interpreter path exists, bootstrap the base
toolchain (`pip`, `setuptools`, `wheel`; errors ignored), and report.  On
verification failure the just-created directory stays on disk (a later
`create` of the same name hits the already-exists branch), so the
environment is recorded in `envs` in both outcomes. -/
def create_post (s : SysState) (env : String) (w : IWorld) : OpResult :=
  if ¬ w.pyExists env then
    ((false, "Failed to create Python executable in environment \x27" ++ env ++ "\x27"),
     { s with envs := env :: s.envs }, [Event.venvCreate env])
  else
    ((true, "Environment \x27" ++ env ++ "\x27 created successfully"),
     { s with envs := env :: s.envs },
     [Event.venvCreate env, Event.pipBootstrap env])

/-- Embeds `EnvironmentManager.create_environment`. -/
def create_environment (w : IWorld) (s : SysState) (env : String)
    (python_version : Option String) : OpResult :=
  if s.envs.contains env then
    ((false, "Environment \x27" ++ env ++ "\x27 already exists"), s, [])
  else
    match python_version with
    | some ver =>
      match find_python_executable w ver with
      | Except.error e => ((false, "Error creating environment: " ++ e), s, [])
      | Except.ok none => ((false, "Python " ++ ver ++ " not found"), s, [])
      | Except.ok (some _) =>
        match w.venvCreateExn env with
        | some e => ((false, "Failed to create environment: " ++ e), s, [Event.venvCreate env])
        | none => create_post s env w
    | none =>
      match w.venvCreateExn env with
      | some e => ((false, "Error creating environment: " ++ e), s, [Event.venvCreate env])
      | none => create_post s env w

/-- Embeds `EnvironmentManager.remove_environment`.  The confirmation is the
console `input()` line, stripped and lowercased; anything but `yes` cancels
before `shutil.rmtree`. -/
def remove_environment (w : IWorld) (s : SysState) (env : String) : OpResult :=
  if ¬ s.envs.contains env then
    ((false, "Environment \x27" ++ env ++ "\x27 does not exist"), s, [])
  else
    let confirm := lowerStr (trimStr w.response)
    if confirm ≠ "yes" then
      ((false, "Environment deletion cancelled"), s, [])
    else
      match w.rmtreeExn env with
      | some e => ((false, "Error removing environment: " ++ e), s, [Event.rmtree env])
      | none =>
        ((true, "Environment \x27" ++ env ++ "\x27 removed successfully"),
         { s with envs := s.envs.filter (fun x => x ≠ env)
                  installed := s.installed.filter (fun p => p.1 ≠ env) },
         [Event.rmtree env])

/-- One-decimal rendering of `n / d` used by `_format_size`
(approximating Python's `:.1f`, rounding half up). -/
def fmt1 (n d : Nat) : String :=
  let t := (n * 10 + d / 2) / d
  toString (t / 10) ++ "." ++ toString (t % 10)

/-- Embeds `PackageInstaller._format_size`. -/
def format_size (size_bytes : Nat) : String :=
  if size_bytes < 1024 then toString size_bytes ++ " B"
  else if size_bytes < 1024 * 1024 then fmt1 size_bytes 1024 ++ " KB"
  else if size_bytes < 1024 * 1024 * 1024 then fmt1 size_bytes (1024 * 1024) ++ " MB"
  else fmt1 size_bytes (1024 * 1024 * 1024) ++ " GB"

/-- Embeds `PackageInstaller._estimate_package_size`: size of the largest wheel
artifact, or `"Unknown"`. -/
def estimate_package_size (d : PyPIData) : String :=
  let wheels := d.urls.filter (fun u => u.packagetype.getD "" = "bdist_wheel")
  match wheels with
  | [] => "Unknown"
  | wh :: rest =>
    let largest := rest.foldl (fun acc u => if u.size.getD 0 > acc.size.getD 0 then u else acc) wh
    format_size (largest.size.getD 0)

/-- Embeds `PackageInstaller._get_package_info`: fetch the registry document for the
package and build the info dict, or `None` on a non-200 response or a raised
exception. -/
def get_package_info (w : IWorld) (package_name : String) : Option PackageInfo :=
  match w.fetch package_name with
  | HttpResult.exn _ => none
  | HttpResult.resp code data =>
    if code ≠ 200 then none
    else
      let info := data.info
      some
        { name := info.name.getD ""
          version := info.version.getD ""
          description := info.summary.getD ""
          author := info.author.getD ""
          license := if falsyStr info.license then "Unknown" else info.license.getD ""
          last_updated := info.upload_time.getD ""
          size := estimate_package_size data
          dependencies := info.requires_dist
          downloads := info.downloads.getD 0
          home_page := info.home_page.getD "" }

/-- The advisory info dict of `PackageInstaller._check_package_security`
(printed to the operator; it never blocks anything). -/
structure SecInfo where
  status : String
  source : String
  license : String
  warnings : List String
deriving DecidableEq, Repr

/-- Embeds `PackageInstaller._check_package_security`: name-keyword and freshness
heuristics over `_get_package_info`; exceptions inside are caught and
downgrade the status to a check-failed marker. -/
def check_package_security (w : IWorld) (package_name : String) (_version : String) : SecInfo :=
  let base : SecInfo := { status := "✓ Safe", source := "PyPI Official",
                          license := "Unknown", warnings := [] }
  match get_package_info w package_name with
  | none => base
  | some pinfo =>
    let lic := pinfo.license
    let ws := if strContains lic "MIT" then ["MIT License - Permissive but review carefully"] else []
    let (st, ws) :=
      if ["hack", "crack", "steal", "fake", "malware", "virus"].any
          (fun k => strContains (lowerStr package_name) k) then
        ("⚠️  Suspicious name", ws ++ ["Package name contains suspicious keywords"])
      else ("✓ Safe", ws)
    if pinfo.last_updated ≠ "" then
      match parseTimestamp pinfo.last_updated with
      | none =>
        { status := "⚠️  Check failed", source := "PyPI Official", license := lic,
          warnings := ws ++ ["Could not verify security: ValueError"] }
      | some ts =>
        let days := Int.fdiv (w.nowSec - ts) 86400
        { status := st, source := "PyPI Official", license := lic,
          warnings := if days < 30 then
            ws ++ ["Package created " ++ toString days ++ " days ago - review carefully"]
          else ws }
    else
      { status := st, source := "PyPI Official", license := lic, warnings := ws }

/-- Embeds `PackageInstaller._log_installation`: the log entry always carries the
literal environment string `venv_ninja_moltbot`; write failures are
swallowed, so no record is appended when the write fails. -/
def log_installation (w : IWorld) (pinfo : PackageInfo) (success : Bool)
    (error : Option String) : List Event :=
  if w.logWriteOk then
    [Event.logAppend { timestamp := w.timestamp, package := pinfo, success := success,
                       error := error, environment := "venv_ninja_moltbot" }]
  else []

/-- The installation `try` block of `install_package`: build the command
(`[pip, "install"]`, plus the separate — malformed — arguments `"=="` and
the version when a truthy version was requested, plus the package), run the
package-manager subprocess, log the attempt, verify the installed version.
The requested version pin is passed to the subprocess oracle so that its
outcome can depend on the full command, as real `pip` rejects the stray
`"=="` argument. -/
def install_subproc (w : IWorld) (s : SysState) (env pkg : String)
    (version : Option String) (pinfo : PackageInfo) (evs : List Event) : OpResult :=
  let evs := evs ++ [Event.pipInstall env pkg]
  match w.pipInstall env pkg (verKey version) with
  | PipOutcome.exit code stderr =>
    if code = 0 then
      let s2 : SysState := { s with installed := (env, pkg) :: s.installed }
      let evs := evs ++ log_installation w pinfo true none ++ [Event.pipShow env pkg]
      let iv := if s2.installed.contains (env, pkg) then w.showVersion env pkg else none
      let msg := "Package \x27" ++ pkg ++ "\x27 successfully installed in \x27" ++ env ++ "\x27"
      let msg := match iv with
        | some v => msg ++ " (version " ++ v ++ ")"
        | none => msg
      ((true, msg), s2, evs)
    else
      ((false, "Installation failed: " ++ stderr), s,
       evs ++ log_installation w pinfo false (some stderr))
  | PipOutcome.timeout =>
    let em := "Installation timeout for package \x27" ++ pkg ++ "\x27"
    ((false, em), s, evs ++ log_installation w pinfo false (some em))
  | PipOutcome.exn e =>
    let em := "Installation error: " ++ e
    ((false, em), s, evs ++ log_installation w pinfo false (some em))

/-- Tail of `install_package` from the registry fetch on: metadata, the advisory
security print and the approval prompt (both skipped under `force`), then the
installation subprocess. -/
def install_stage3 (w : IWorld) (s : SysState) (env pkg : String) (version : Option String)
    (force : Bool) (evs : List Event) : OpResult :=
  match get_package_info w pkg with
  | none => ((false, "Package \x27" ++ pkg ++ "\x27 not found in PyPI"), s, evs)
  | some pinfo =>
    if ¬ force then
      let dispVersion := match version with
        | some v => if v = "" then pinfo.version else v
        | none => pinfo.version
      let _sec := check_package_security w pkg dispVersion
      let evs := evs ++ [Event.advisoryCheck pkg]
      let resp := lowerStr (trimStr w.response)
      if resp = "skip" then ((true, "Installation skipped by user"), s, evs)
      else if resp ≠ "yes" then ((false, "Installation cancelled by user"), s, evs)
      else install_subproc w s env pkg version pinfo evs
    else install_subproc w s env pkg version pinfo evs

/-- Tail of `install_package` from the already-installed check on: unless `force`,
query the environment's package manager (`pip show`) and return the
idempotent success immediately when the package is present. -/
def install_stage2 (w : IWorld) (s : SysState) (env pkg : String) (version : Option String)
    (force : Bool) (evs : List Event) : OpResult :=
  if ¬ force then
    let evs := evs ++ [Event.pipShow env pkg]
    if s.installed.contains (env, pkg) then
      ((true, "Package \x27" ++ pkg ++ "\x27 is already installed in \x27" ++ env ++ "\x27"),
       s, evs)
    else install_stage3 w s env pkg version force evs
  else install_stage3 w s env pkg version force evs

/-- Embeds `PackageInstaller.install_package`: resolve (or create) the target
environment, then continue with the already-installed check and the rest of
the pipeline. -/
def install_package (w : IWorld) (s : SysState) (package_name : String)
    (version : Option String) (env_name : Option String) (force : Bool) : OpResult :=
  match env_name with
  | some e =>
    if ¬ s.envs.contains e then
      ((false, "Environment \x27" ++ e ++ "\x27 not found"), s, [])
    else install_stage2 w s e package_name version force []
  | none =>
    if s.envs.contains defaultEnvName then
      install_stage2 w s defaultEnvName package_name version force []
    else
      match create_environment w s defaultEnvName none with
      | ((true, _), s2, evs) => install_stage2 w s2 defaultEnvName package_name version force evs
      | ((false, m), s2, evs) => ((false, m), s2, evs)

/-- The confirmation prompt and removal subprocess of `uninstall_package`:
any response other than `yes` returns a *success-flagged* cancellation
without touching the environment. -/
def uninstall_confirm (w : IWorld) (s : SysState) (pkg env : String) : OpResult :=
  let resp := lowerStr (trimStr w.response)
  if resp ≠ "yes" then
    ((true, "Uninstallation cancelled by user"), s, [])
  else
    let evs := [Event.pipUninstall env pkg]
    match w.pipUninstall env pkg with
    | PipOutcome.exit code stderr =>
      if code = 0 then
        ((true, "Package \x27" ++ pkg ++ "\x27 uninstalled successfully"),
         { s with installed := s.installed.filter (fun p => p ≠ (env, pkg)) }, evs)
      else ((false, "Uninstallation failed: " ++ stderr), s, evs)
    | PipOutcome.timeout => ((false, "Uninstallation error: timeout"), s, evs)
    | PipOutcome.exn e => ((false, "Uninstallation error: " ++ e), s, evs)

/-- Embeds `PackageInstaller.uninstall_package`.  A caller-specified environment
must exist; with none given the default environment is used without an
existence check. -/
def uninstall_package (w : IWorld) (s : SysState) (package_name : String)
    (env_name : Option String) : OpResult :=
  match env_name with
  | some e =>
    if ¬ s.envs.contains e then
      ((false, "Environment \x27" ++ e ++ "\x27 not found"), s, [])
    else uninstall_confirm w s package_name e
  | none => uninstall_confirm w s package_name defaultEnvName

/-- Returns `true` exactly on the event of invoking
`SecurityChecker.check_package_safety`. -/
def isSecurityCheckEv : Event → Bool
  | Event.securityCheck _ => true
  | _ => false

/-- The log record carried by a `logAppend` event, if any. -/
def logRecOf : Event → Option LogRecord
  | Event.logAppend r => some r
  | _ => none

/-- Test fixture: a registry that is unreachable (every fetch raises). -/
def envDown : SEnv :=
  { fetch := fun _ _ => HttpResult.exn "connection refused", nowSec := 0 }

/-- Test fixture: the benign registry `info` document of §8's scenario. -/
def demoInfo : PyPIInfo :=
  { name := some "demo", version := some "1.0.0", summary := some "A demo package",
    description := some "A demo package for tests", author := some "Alex",
    license := some "MIT", upload_time := some "2024-01-01T00:00:00",
    downloads := some 50000, requires_dist := [],
    project_urls := [("Source", "https://github.com/demo/demo")],
    home_page := some "https://example.org" }

/-- Test fixture: a wheel hosted on `files.pythonhosted.org` (a trusted
domain), 2048 bytes, uploaded 2024-01-01. -/
def demoArtifact : UrlInfo :=
  { filename := some "demo-1.0.0-py3-none-any.whl", packagetype := some "bdist_wheel",
    size := some 2048, upload_time := some "2024-01-01T00:00:00",
    url := some "https://files.pythonhosted.org/packages/demo-1.0.0-py3-none-any.whl" }

/-- Test fixture: the registry document combining the two above. -/
def demoData : PyPIData := { info := demoInfo, urls := [demoArtifact] }

/-- Test fixture: a healthy registry serving `demoData` for every package. -/
def envPypi : SEnv :=
  { fetch := fun _ _ => HttpResult.resp 200 demoData, nowSec := 1750000000 }

/-- Test fixture: a world where the registry serves `demoData`, every
subprocess succeeds, and the operator answers `yes`. -/
def baseWorld : IWorld :=
  { fetch := fun _ => HttpResult.resp 200 demoData
    nowSec := 1750000000
    timestamp := "2025-06-15T12:00:00"
    response := "yes"
    pipInstall := fun _ _ _ => PipOutcome.exit 0 ""
    pipUninstall := fun _ _ => PipOutcome.exit 0 ""
    showVersion := fun _ _ => none
    venvCreateExn := fun _ => none
    pyExists := fun _ => true
    pythonProbe := fun _ _ => true
    rmtreeExn := fun _ => none
    logWriteOk := true }

/-- Test fixture: `baseWorld` with the operator declining (`no`). -/
def wNo : IWorld := { baseWorld with response := "no" }

/-- Test fixture: `baseWorld` with the operator answering `skip`. -/
def wSkip : IWorld := { baseWorld with response := "skip" }

/-- Test fixture: only the default environment exists, nothing installed. -/
def sReady : SysState := { envs := ["venv_ninja_moltbot"], installed := [] }

/-- Test fixture: an environment `envA` with `requests` installed in it. -/
def sEnvA : SysState := { envs := ["envA"], installed := [("envA", "requests")] }

/-- Test fixture: an empty caller-specified environment `envB`. -/
def sEnvB : SysState := { envs := ["envB"], installed := [] }

/-- The result of a first un-forced `install_package` of `demo` into the
default environment under `baseWorld` (used to instantiate theorems). -/
def out1Demo : OpResult := install_package baseWorld sReady "demo" none none false

/-- The report produced for `demo` against the unreachable registry. -/
def demoReport : Report :=
  match check_package_safety envDown "demo" none with
  | Except.ok r => r
  | Except.error _ => initReport "demo" none

/-- The basic-validation result for `demo` with no version given. -/
def basicDemoRes : CheckResult :=
  match basic_validation "demo" (some "") with
  | Except.ok c => c
  | Except.error _ => initCheck

/-- A forced install of `demo` into the caller-specified environment `envB`
(used to exhibit an audit-log record). -/
def outLogRun : OpResult := install_package baseWorld sEnvB "demo" none (some "envB") true

/-- Placeholder log record for the (unreached) empty case of `logRecB`. -/
def emptyLogRec : LogRecord :=
  { timestamp := "", success := false, error := none, environment := ""
    package := { name := "", version := "", description := "", author := "",
                 license := "", last_updated := "", size := "", dependencies := [],
                 downloads := 0, home_page := "" } }

/-- The audit-log record appended by `outLogRun`. -/
def logRecB : LogRecord :=
  match outLogRun.2.2.filterMap logRecOf with
  | r :: _ => r
  | [] => emptyLogRec

/-- All log records among the given events carry the constant environment
string that `_log_installation` hardcodes. -/
def logsEnvOk (l : List Event) : Prop :=
  ∀ rec : LogRecord, Event.logAppend rec ∈ l → rec.environment = "venv_ninja_moltbot"

/-- C2: refuted on the code.  With the registry unreachable, the report for
`demo` contains seven FAIL checks and zero WARNING checks, yet
`overall_status` is still `SAFE`: `check_package_safety` never derives
`overall_status` from the per-check statuses (it only ever flips it to
`CHECK_FAILED` on an escaping exception). -/
theorem c2_overall_never_derived :
    (check_package_safety envDown "demo" none).map
      (fun r => (r.overall_status, countStatus "FAIL" r.checks, countStatus "WARNING" r.checks))
      = Except.ok ("SAFE", 7, 0) := by
  rfl

/-- C4, counterexample: the unusual version string `1..0` makes
`_basic_validation` raise `KeyError` (it appends to a `"warnings"` key its
result dict does not have); the exception escapes the check, so the whole
battery is aborted — the report carries *no* per-check results and
`overall_status = CHECK_FAILED` — contradicting the claim that one check's
exception is converted to a per-check state while all remaining checks still
execute. -/
theorem c4_counterexample :
    (check_package_safety envDown "requests" (some "1..0")).map
      (fun r => (r.overall_status, r.checks)) = Except.ok ("CHECK_FAILED", []) := by
  rfl

/-- C5: refuted on the code.  `requests 1.0.0` is far below the table's
`<2.25.0` threshold, yet the known-vulnerability check returns `PASS`:
`_is_version_older` is handed the raw constraint string `"<2.25.0"`, whose
first component `"<2"` fails `int()` parsing, and the swallowed `ValueError`
makes the comparison `False` for every listed package and version. -/
theorem c5_vuln_check_never_fails :
    check_known_vulnerabilities "requests" (some "1.0.0") =
      { initCheck with details := [("vulnerability_check", "SIMPLIFIED")] }
    ∧ is_version_older "1.0.0" "<2.25.0" = false
    ∧ (∀ v : String, is_version_older v "<2.25.0" = false) := by
  refine ⟨rfl, rfl, fun v => ?_⟩
  have h : ((splitChar '.' "<2.25.0").mapM parseIntPy) = (none : Option (List Int)) := rfl
  unfold is_version_older
  rw [h]
  rcases (splitChar '.' v).mapM parseIntPy with _ | vp <;> rfl

/-- C6, counterexample: `uninstall_package` with a declined confirmation does
leave the state untouched and runs no removal subprocess, but its result is
`(True, "Uninstallation cancelled by user")` — a *success*-flagged
cancellation, not the claimed `Cancelled`/`UserCancelled` error result. -/
theorem c6_counterexample :
    uninstall_package wNo sEnvA "requests" (some "envA") =
      ((true, "Uninstallation cancelled by user"), sEnvA, []) := by
  rfl

/-- C7, counterexample: with the approval capability answering `skip`, the
first `install(demo)` *succeeds* (returns `True`) with the skipped message
and installs nothing; the second un-forced call does not return "already
installed" — it runs the whole flow again, including the advisory security
check — refuting the claim for the success-via-skip case. -/
theorem c7_counterexample :
    install_package wSkip sReady "demo" none none false =
      ((true, "Installation skipped by user"), sReady,
       [Event.pipShow defaultEnvName "demo", Event.advisoryCheck "demo"])
    ∧ (install_package wSkip
        (install_package wSkip sReady "demo" none none false).2.1
        "demo" none none false).1 = (true, "Installation skipped by user")
    ∧ (install_package wSkip
        (install_package wSkip sReady "demo" none none false).2.1
        "demo" none none false).2.2.contains (Event.advisoryCheck "demo") = true := by
  exact ⟨rfl, rfl, rfl⟩

/-- C8: refuted on the code.  For an artifact hosted on the trusted
`files.pythonhosted.org`, the download-URL check still reports `WARNING`
with `Untrusted domain: ` (empty host): the loop assigns
`url_info.get("upload_time")` — the timestamp, not the `url` field — to
`download_url` and parses that, so the extracted host is `""` for every
artifact.  The artifact's actual URL host is trusted, as the second and
third conjuncts show. -/
theorem c8_parses_upload_time_not_url :
    check_download_urls envPypi "demo" none =
      { status := "WARNING", issues := [], warnings := some ["Untrusted domain: "],
        details := [("total_urls", "1"), ("suspicious_urls", "1")] }
    ∧ netlocOf (demoArtifact.url.getD "") = "files.pythonhosted.org"
    ∧ trusted_domains.contains (netlocOf (demoArtifact.url.getD "")) = true := by
  exact ⟨rfl, rfl, rfl⟩

/-- C9: refuted on the code.  For the valid name `flask` with the unusual
version `1.0.0.beta2`, `_basic_validation` does not record a warning: its
result dict is created without a `"warnings"` key, so the append raises
`KeyError`; `check_package_safety` catches it at top level and the report
comes back `CHECK_FAILED` with no per-check results and no warnings —
the evaluation does not continue. -/
theorem c9_unusual_version_raises :
    is_valid_version "1.0.0.beta2" = false
    ∧ basic_validation "flask" (some "1.0.0.beta2") =
        Except.error "KeyError: \x27warnings\x27"
    ∧ (check_package_safety envDown "flask" (some "1.0.0.beta2")).map
        (fun r => (r.overall_status, r.checks, r.warnings))
        = Except.ok ("CHECK_FAILED", [], []) := by
  exact ⟨rfl, rfl, rfl⟩

/-- C1: refuted on the code.  The safety report for `hackkit` (a name
matching the `hack` denylist pattern) contains FAIL checks yet its
`overall_status` stays `SAFE`, and `install_package` with `force=True`
returns success after invoking the package-manager install subprocess — it
never invokes `SecurityChecker.check_package_safety` at all (no
`securityCheck` event exists in any run) and has no `SecurityRejected`
outcome. -/
theorem c1_install_never_consults_security :
    (check_package_safety envDown "hackkit" none).map
      (fun r => (countStatus "FAIL" r.checks, r.overall_status)) = Except.ok (8, "SAFE")
    ∧ (install_package baseWorld sReady "hackkit" none none true).1.1 = true
    ∧ (install_package baseWorld sReady "hackkit" none none true).2.2.contains
        (Event.pipInstall defaultEnvName "hackkit") = true
    ∧ (install_package baseWorld sReady "hackkit" none none true).2.2.all
        (fun e => !(isSecurityCheckEv e)) = true := by
  exact ⟨rfl, rfl, rfl, rfl⟩

theorem countStatus_append (st : String) (cs : List (String × CheckResult)) (x : String × CheckResult) :
    countStatus st (cs ++ [x]) = countStatus st cs + (if x.2.status = st then 1 else 0) := by
  rcases x with ⟨nm, c⟩
  by_cases hx : c.status = st <;>
    simp [countStatus, List.filter_append, List.filter, hx]

theorem record_scoreInv (r : Report) (nm : String) (c : CheckResult)
    (h : r.score = 100 - 20 * (countStatus "FAIL" r.checks : Int)
                  - 10 * (countStatus "WARNING" r.checks : Int)) :
    (∀ r2, record r nm c = Except.ok r2 →
      r2.score = 100 - 20 * (countStatus "FAIL" r2.checks : Int)
                - 10 * (countStatus "WARNING" r2.checks : Int)) ∧
    (∀ r2 e, record r nm c = Except.error (r2, e) →
      r2.score = 100 - 20 * (countStatus "FAIL" r2.checks : Int)
                - 10 * (countStatus "WARNING" r2.checks : Int)) := by
  unfold record update_score
  constructor
  · intro r2 hr
    split_ifs at hr with h1 h2
    · simp only [Except.ok.injEq] at hr
      subst hr
      simp [countStatus_append, h1, h]
      omega
    · cases hw : c.warnings with
      | none =>
        rw [hw] at hr
        exact Except.noConfusion hr
      | some ws =>
        rw [hw] at hr
        simp only [Except.ok.injEq] at hr
        subst hr
        simp [countStatus_append, h1, h2, h]
        omega
    · simp only [Except.ok.injEq] at hr
      subst hr
      simp [countStatus_append, h1, h2, h]
  · intro r2 e hr
    split_ifs at hr with h1 h2
    cases hw : c.warnings with
    | none =>
      rw [hw] at hr
      simp only [Except.error.injEq, Prod.mk.injEq] at hr
      obtain ⟨hr1, -⟩ := hr
      subst hr1
      simp [countStatus_append, h1, h2, h]
      omega
    | some ws =>
      rw [hw] at hr
      exact Except.noConfusion hr

theorem runChecks_scoreInv (L : List (String × Except String CheckResult)) (r : Report)
    (h : r.score = 100 - 20 * (countStatus "FAIL" r.checks : Int)
                  - 10 * (countStatus "WARNING" r.checks : Int)) :
    (runChecks r L).1.score =
      100 - 20 * (countStatus "FAIL" (runChecks r L).1.checks : Int)
          - 10 * (countStatus "WARNING" (runChecks r L).1.checks : Int) := by
  induction L generalizing r with
  | nil => simpa [runChecks]
  | cons x rest ih =>
    rcases x with ⟨nm, ec⟩
    cases ec with
    | error e => simpa [runChecks]
    | ok c =>
      simp only [runChecks]
      cases hrec : record r nm c with
      | ok r2 =>
        simp only [hrec]
        exact ih r2 ((record_scoreInv r nm c h).1 r2 hrec)
      | error pe =>
        rcases pe with ⟨r2, e⟩
        simp only [hrec]
        exact (record_scoreInv r nm c h).2 r2 e hrec

theorem generate_recommendations_preserves (r r2 : Report)
    (h : generate_recommendations r = Except.ok r2) :
    r2.score = r.score ∧ r2.checks = r.checks := by
  unfold generate_recommendations at h
  split_ifs at h <;> simp only [Except.ok.injEq] at h <;> (try split at h) <;>
    (subst h; exact ⟨rfl, rfl⟩)

/-- C3: confirmed.  Every report `check_package_safety` returns satisfies
`score = 100 − 20·(#FAIL checks) − 10·(#WARNING checks)` over the per-check
results it contains, so no check ever increases the score. -/
theorem c3_score_formula (env : SEnv) (n : String) (v : Option String) (r : Report)
    (h : check_package_safety env n v = Except.ok r) :
    r.score = 100 - 20 * (countStatus "FAIL" r.checks : Int)
              - 10 * (countStatus "WARNING" r.checks : Int) := by
  have hrun := runChecks_scoreInv (checkList env n v) (initReport n v)
    (by simp [initReport, countStatus])
  unfold check_package_safety at h
  rcases hq : runChecks (initReport n v) (checkList env n v) with ⟨r0, err⟩
  rw [hq] at h hrun
  simp only at h hrun
  cases err with
  | none =>
    obtain ⟨hs, hc⟩ := generate_recommendations_preserves _ _ h
    rw [hs, hc]
    exact hrun
  | some e =>
    obtain ⟨hs, hc⟩ := generate_recommendations_preserves _ _ h
    rw [hs, hc]
    exact hrun

/-- C3, witness: the score formula evaluated on the concrete report for
`demo` against the unreachable registry. -/
theorem c3_score_formula_witness :
    demoReport.score = 100 - 20 * (countStatus "FAIL" demoReport.checks : Int)
              - 10 * (countStatus "WARNING" demoReport.checks : Int) :=
  c3_score_formula envDown "demo" none demoReport rfl

theorem foldl_flag_status (f : String → Bool) (msg : String → String) (l : List String)
    (p : String × List String) (hp : p.1 = "PASS" ∨ p.1 = "FAIL") :
    (l.foldl (fun acc q => if f q then ("FAIL", acc.2 ++ [msg q]) else acc) p).1 = "PASS" ∨
    (l.foldl (fun acc q => if f q then ("FAIL", acc.2 ++ [msg q]) else acc) p).1 = "FAIL" := by
  induction l generalizing p with
  | nil => simpa using hp
  | cons q l ih =>
    simp only [List.foldl]
    apply ih
    split
    · exact Or.inr rfl
    · exact hp

theorem basic_validation_status (n : String) (v : Option String) (c : CheckResult)
    (h : basic_validation n v = Except.ok c) : c.status = "PASS" ∨ c.status = "FAIL" := by
  have key := foldl_flag_status (fun q => strContains (lowerStr n) q)
    (fun q => "Package name matches suspicious pattern: " ++ q) malicious_patterns
  unfold basic_validation at h
  cases v with
  | none =>
    by_cases hm : matchIdentRe n <;> simp only [hm] at h <;> simp at h
    · subst h
      exact key _ (Or.inl rfl)
    · subst h
      exact key _ (Or.inr rfl)
  | some ver =>
    dsimp only at h
    rcases Decidable.em (ver ≠ "" ∧ ¬ is_valid_version ver) with hval | hval
    · rw [if_pos hval] at h
      exact absurd h (by simp)
    · rw [if_neg hval] at h
      by_cases hm : matchIdentRe n <;> simp only [hm] at h <;> simp at h
      · subst h
        exact key _ (Or.inl rfl)
      · subst h
        exact key _ (Or.inr rfl)

theorem metadata_warnings_isSome (env : SEnv) (n : String) (v : Option String) :
    (check_package_metadata env n v).warnings.isSome := by
  unfold check_package_metadata
  repeat' split
  all_goals try simp [initCheck]
  all_goals repeat' split
  all_goals simp [initCheck]

theorem download_urls_warnings_isSome (env : SEnv) (n : String) (v : Option String) :
    (check_download_urls env n v).warnings.isSome := by
  unfold check_download_urls
  repeat' split
  all_goals try simp [initCheck]

theorem file_types_warnings_isSome (env : SEnv) (n : String) (v : Option String) :
    (check_file_types env n v).warnings.isSome := by
  unfold check_file_types
  repeat' split
  all_goals try simp [initCheck]

theorem dependencies_warnings_isSome (env : SEnv) (n : String) (v : Option String) :
    (check_dependencies env n v).warnings.isSome := by
  unfold check_dependencies
  repeat' split
  all_goals try simp [initCheck]
  all_goals (split_ifs <;> simp [initCheck])

theorem vulnerabilities_warnings_isSome (n : String) (v : Option String) :
    (check_known_vulnerabilities n v).warnings.isSome := by
  unfold check_known_vulnerabilities
  repeat' split
  all_goals try simp [initCheck]

theorem license_warnings_isSome (env : SEnv) (n : String) (v : Option String) :
    (check_license env n v).warnings.isSome := by
  unfold check_license
  repeat' split
  all_goals try simp [initCheck]

theorem source_code_warnings_isSome (env : SEnv) (n : String) (v : Option String) :
    (check_source_code_integrity env n v).warnings.isSome := by
  unfold check_source_code_integrity
  repeat' split
  all_goals try simp [initCheck]

theorem age_popularity_warnings_isSome (env : SEnv) (n : String) :
    (check_package_age_and_popularity env n).warnings.isSome := by
  unfold check_package_age_and_popularity
  repeat' split
  all_goals try simp [initCheck]
  all_goals repeat' split
  all_goals simp [initCheck]

theorem record_ok_of (r : Report) (nm : String) (c : CheckResult)
    (hc : c.status = "WARNING" → c.warnings.isSome) :
    ∃ r2, record r nm c = Except.ok r2 ∧ r2.checks = r.checks ++ [(nm, c)] ∧
      r2.overall_status = r.overall_status := by
  unfold record update_score
  split_ifs with h1 h2
  · exact ⟨_, rfl, rfl, rfl⟩
  · rcases hw : c.warnings with _ | ws
    · rw [hw] at hc
      simp at hc
      exact absurd h2 hc
    · exact ⟨_, rfl, rfl, rfl⟩
  · exact ⟨_, rfl, rfl, rfl⟩

theorem runChecks_all_ok (L : List (String × Except String CheckResult)) (r : Report)
    (hL : ∀ x ∈ L, ∃ c, x.2 = Except.ok c ∧ (c.status = "WARNING" → c.warnings.isSome)) :
    ∃ r2, runChecks r L = (r2, none) ∧
      r2.checks.map Prod.fst = r.checks.map Prod.fst ++ L.map Prod.fst ∧
      r2.overall_status = r.overall_status := by
  induction L generalizing r with
  | nil => exact ⟨r, rfl, by simp, rfl⟩
  | cons x rest ih =>
    obtain ⟨c, hc, hcw⟩ := hL x (by simp)
    rcases x with ⟨nm, ec⟩
    simp only at hc
    subst hc
    obtain ⟨r2, hr2, hchk, hov⟩ := record_ok_of r nm c hcw
    obtain ⟨r3, hr3, hchk3, hov3⟩ := ih r2 (fun y hy => hL y (by simp [hy]))
    refine ⟨r3, ?_, ?_, ?_⟩
    · simp only [runChecks, hr2]
      exact hr3
    · rw [hchk3, hchk]
      simp
    · rw [hov3, hov]

theorem generate_recommendations_ok (r : Report) (h1 : r.overall_status ≠ "FAIL")
    (h2 : r.overall_status ≠ "WARNING") :
    ∃ r2, generate_recommendations r = Except.ok r2 ∧ r2.checks = r.checks := by
  unfold generate_recommendations
  rw [if_neg h1, if_neg h2]
  refine ⟨_, rfl, ?_⟩
  split_ifs <;> rfl

/-- C4, amended: exceptions inside checks 2-9 are caught within the failing
check and converted to a FAIL (not `CHECK_FAILED`) status for that check
only, and whenever basic validation itself returns (rather than raising),
the whole battery runs: the report carries all nine per-check results.  The
abort of `c4_counterexample` can only come from the first check. -/
theorem c4_amended :
    (∀ (env : SEnv) (n : String) (v : Option String) (c : CheckResult),
       basic_validation n v = Except.ok c →
       ∃ r, check_package_safety env n v = Except.ok r ∧
         r.checks.map Prod.fst = checkNames) ∧
    (∀ (env : SEnv) (n : String) (v : Option String) (m : String),
       env.fetch n (verKey v) = HttpResult.exn m →
       (check_download_urls env n v).status = "FAIL") := by
  constructor
  · intro env n v c hbasic
    have hL : ∀ x ∈ checkList env n v,
        ∃ c2, x.2 = Except.ok c2 ∧ (c2.status = "WARNING" → c2.warnings.isSome) := by
      intro x hx
      simp only [checkList, List.mem_cons, List.not_mem_nil, or_false] at hx
      rcases hx with rfl | rfl | rfl | rfl | rfl | rfl | rfl | rfl | rfl
      · refine ⟨c, hbasic, fun hwarn => ?_⟩
        rcases basic_validation_status n v c hbasic with h | h <;> rw [h] at hwarn <;>
          simp at hwarn
      · exact ⟨_, rfl, fun _ => metadata_warnings_isSome env n v⟩
      · exact ⟨_, rfl, fun _ => download_urls_warnings_isSome env n v⟩
      · exact ⟨_, rfl, fun _ => file_types_warnings_isSome env n v⟩
      · exact ⟨_, rfl, fun _ => dependencies_warnings_isSome env n v⟩
      · exact ⟨_, rfl, fun _ => age_popularity_warnings_isSome env n⟩
      · exact ⟨_, rfl, fun _ => vulnerabilities_warnings_isSome n v⟩
      · exact ⟨_, rfl, fun _ => license_warnings_isSome env n v⟩
      · exact ⟨_, rfl, fun _ => source_code_warnings_isSome env n v⟩
    obtain ⟨r2, hrun, hnames, hov⟩ := runChecks_all_ok (checkList env n v) (initReport n v) hL
    have hov2 : r2.overall_status = "SAFE" := by
      rw [hov]
      rfl
    obtain ⟨r3, hgen, hchk⟩ := generate_recommendations_ok r2
      (by rw [hov2]; decide) (by rw [hov2]; decide)
    refine ⟨r3, ?_, ?_⟩
    · unfold check_package_safety
      rw [hrun]
      dsimp only
      exact hgen
    · rw [hchk, hnames]
      simp [initReport, checkList, checkNames]
  · intro env n v m hf
    unfold check_download_urls
    rw [hf]

/-- C4, witness for the amended claim: with the registry down and the falsy
version string `""` (which skips the `if version` guard, so basic validation
returns rather than raising), the report for `demo` contains all nine
per-check results, and the download-URL check on the raised fetch has status
`FAIL`. -/
theorem c4_amended_witness :
    (∃ r, check_package_safety envDown "demo" (some "") = Except.ok r ∧
       r.checks.map Prod.fst = checkNames) ∧
    (check_download_urls envDown "demo" none).status = "FAIL" :=
  ⟨c4_amended.1 envDown "demo" (some "") basicDemoRes rfl,
   c4_amended.2 envDown "demo" none "connection refused" rfl⟩

/-- C6, amended: with a declined confirmation (any stripped/lowercased
response other than `yes`) and an existing environment, `remove_environment`
deletes nothing and returns the error-flagged `Cancelled` result, while
`uninstall_package` runs no removal subprocess and leaves the state
unchanged but returns a *success*-flagged cancellation message. -/
theorem c6_amended (w : IWorld) (s : SysState) (e p : String)
    (hr : lowerStr (trimStr w.response) ≠ "yes") (he : s.envs.contains e = true) :
    remove_environment w s e = ((false, "Environment deletion cancelled"), s, []) ∧
    uninstall_package w s p (some e) =
      ((true, "Uninstallation cancelled by user"), s, []) := by
  constructor
  · unfold remove_environment
    rw [he]
    simp [hr]
  · unfold uninstall_package uninstall_confirm
    dsimp only
    rw [he]
    simp [hr]

/-- C6, witness for the amended claim: the declining world `wNo` on the
concrete state `sEnvA`. -/
theorem c6_amended_witness :
    remove_environment wNo sEnvA "envA" = ((false, "Environment deletion cancelled"), sEnvA, []) ∧
    uninstall_package wNo sEnvA "requests" (some "envA") =
      ((true, "Uninstallation cancelled by user"), sEnvA, []) :=
  c6_amended wNo sEnvA "envA" "requests" (by decide) (by decide)

theorem install_subproc_ok (w : IWorld) (s : SysState) (env pkg : String)
    (version : Option String) (pinfo : PackageInfo) (evs : List Event) (m : String)
    (s1 : SysState) (ev : List Event)
    (h : install_subproc w s env pkg version pinfo evs = ((true, m), s1, ev)) :
    s1.installed.contains (env, pkg) = true ∧ s1.envs = s.envs := by
  unfold install_subproc at h
  cases hp : w.pipInstall env pkg (verKey version) with
  | exit code stderr =>
    rw [hp] at h
    dsimp only at h
    split_ifs at h with hc h2
    · simp only [Prod.mk.injEq] at h
      obtain ⟨-, hs1, -⟩ := h
      subst hs1
      exact ⟨by simp, rfl⟩
    · simp only [Prod.mk.injEq] at h
      obtain ⟨-, hs1, -⟩ := h
      subst hs1
      exact ⟨by simp, rfl⟩
    · simp at h
  | timeout =>
    rw [hp] at h
    simp at h
  | exn e =>
    rw [hp] at h
    simp at h

theorem install_stage3_ok (w : IWorld) (s : SysState) (env pkg : String)
    (version : Option String) (force : Bool) (evs : List Event) (m : String)
    (s1 : SysState) (ev : List Event)
    (h : install_stage3 w s env pkg version force evs = ((true, m), s1, ev))
    (hm : m ≠ "Installation skipped by user") :
    s1.installed.contains (env, pkg) = true ∧ s1.envs = s.envs := by
  unfold install_stage3 at h
  cases hpi : get_package_info w pkg with
  | none =>
    rw [hpi] at h
    simp at h
  | some pinfo =>
    rw [hpi] at h
    dsimp only at h
    by_cases hf : force
    · rw [if_neg (by simp [hf])] at h
      exact install_subproc_ok w s env pkg version pinfo evs m s1 ev h
    · rw [if_pos (by simp [hf])] at h
      split_ifs at h with h1 h2
      · simp only [Prod.mk.injEq] at h
        obtain ⟨⟨-, hmsg⟩, -, -⟩ := h
        exact absurd hmsg.symm hm
      · simp at h
      · exact install_subproc_ok w s env pkg version pinfo _ m s1 ev h

theorem install_stage2_ok (w : IWorld) (s : SysState) (env pkg : String)
    (version : Option String) (evs : List Event) (m : String)
    (s1 : SysState) (ev : List Event)
    (h : install_stage2 w s env pkg version false evs = ((true, m), s1, ev))
    (hm : m ≠ "Installation skipped by user") :
    s1.installed.contains (env, pkg) = true ∧ s1.envs = s.envs := by
  unfold install_stage2 at h
  rw [if_pos (by simp)] at h
  split_ifs at h with hin
  · simp only [Prod.mk.injEq] at h
    obtain ⟨-, hs1, -⟩ := h
    subst hs1
    exact ⟨hin, rfl⟩
  · exact install_stage3_ok w s env pkg version false _ m s1 ev h hm

theorem create_environment_ok_envs (w : IWorld) (s : SysState) (env : String)
    (pv : Option String) (msg : String) (s2 : SysState) (evs : List Event)
    (h : create_environment w s env pv = ((true, msg), s2, evs)) :
    s2.envs.contains env = true := by
  unfold create_environment create_post at h
  repeat' split at h
  all_goals try simp_all
  all_goals obtain ⟨-, hs2, -⟩ := h
  all_goals subst hs2
  all_goals simp

theorem install_package_ok_default (w : IWorld) (s : SysState) (n m : String)
    (version : Option String) (s1 : SysState) (ev : List Event)
    (h : install_package w s n version none false = ((true, m), s1, ev))
    (hm : m ≠ "Installation skipped by user") :
    s1.envs.contains defaultEnvName = true ∧
    s1.installed.contains (defaultEnvName, n) = true := by
  unfold install_package at h
  dsimp only at h
  by_cases hd : s.envs.contains defaultEnvName
  · rw [if_pos hd] at h
    obtain ⟨hin, henv⟩ := install_stage2_ok w s defaultEnvName n version [] m s1 ev h hm
    rw [henv]
    exact ⟨hd, hin⟩
  · rw [if_neg hd] at h
    rcases hc : create_environment w s defaultEnvName none with ⟨⟨ok, msg2⟩, s2, evs2⟩
    rw [hc] at h
    cases ok with
    | true =>
      dsimp only at h
      obtain ⟨hin, henv⟩ :=
        install_stage2_ok w s2 defaultEnvName n version evs2 m s1 ev h hm
      rw [henv]
      exact ⟨create_environment_ok_envs w s defaultEnvName none msg2 s2 evs2 hc, hin⟩
    | false =>
      simp at h

/-- C7, amended: when a first un-forced `install(name)` into the default
environment succeeds *other than via the user-skip path*, a second un-forced
call returns success with the "already installed" message, leaves the state
untouched, and performs only the `pip show` query: no security check, no
install subprocess, and no audit-log append. -/
theorem c7_amended (w w2 : IWorld) (s : SysState) (n m : String) (s1 : SysState)
    (ev : List Event)
    (h : install_package w s n none none false = ((true, m), s1, ev))
    (hm : m ≠ "Installation skipped by user") :
    install_package w2 s1 n none none false =
      ((true, "Package \x27" ++ n ++ "\x27 is already installed in \x27" ++
        defaultEnvName ++ "\x27"), s1, [Event.pipShow defaultEnvName n]) := by
  obtain ⟨hd, hin⟩ := install_package_ok_default w s n m none s1 ev h hm
  unfold install_package
  dsimp only
  rw [if_pos hd]
  unfold install_stage2
  rw [if_pos (by simp), if_pos hin]
  simp

/-- C7, witness for the amended claim: after a concrete successful install of
`demo` under `baseWorld`, the second call is the idempotent no-op. -/
theorem c7_amended_witness :
    install_package baseWorld out1Demo.2.1 "demo" none none false =
      ((true, "Package \x27" ++ "demo" ++ "\x27 is already installed in \x27" ++
        defaultEnvName ++ "\x27"), out1Demo.2.1, [Event.pipShow defaultEnvName "demo"]) :=
  c7_amended baseWorld baseWorld sReady "demo" out1Demo.1.2 out1Demo.2.1 out1Demo.2.2
    rfl (by decide)

theorem logsEnvOk_nil : logsEnvOk [] := by
  intro rec h
  simp at h

theorem logsEnvOk_append (l1 l2 : List Event) (h1 : logsEnvOk l1) (h2 : logsEnvOk l2) :
    logsEnvOk (l1 ++ l2) := by
  intro rec h
  rcases List.mem_append.mp h with h | h
  · exact h1 rec h
  · exact h2 rec h

theorem logsEnvOk_of_not_log (e : Event) (he : logRecOf e = none) : logsEnvOk [e] := by
  intro rec h
  simp at h
  subst h
  simp [logRecOf] at he

theorem logsEnvOk_log_installation (w : IWorld) (pinfo : PackageInfo) (b : Bool)
    (err : Option String) : logsEnvOk (log_installation w pinfo b err) := by
  intro rec h
  unfold log_installation at h
  split_ifs at h
  · simp at h
    subst h
    rfl
  · simp at h

theorem create_environment_logsOk (w : IWorld) (s : SysState) (env : String)
    (pv : Option String) : logsEnvOk (create_environment w s env pv).2.2 := by
  intro rec h
  unfold create_environment create_post at h
  repeat' split at h
  all_goals simp_all

theorem install_subproc_logsOk (w : IWorld) (s : SysState) (env pkg : String)
    (version : Option String) (pinfo : PackageInfo) (evs : List Event) (hevs : logsEnvOk evs) :
    logsEnvOk (install_subproc w s env pkg version pinfo evs).2.2 := by
  unfold install_subproc
  cases hp : w.pipInstall env pkg (verKey version) with
  | exit code stderr =>
    dsimp only
    split_ifs with hc hiv
    · exact logsEnvOk_append _ _
        (logsEnvOk_append _ _
          (logsEnvOk_append _ _ hevs (logsEnvOk_of_not_log (Event.pipInstall env pkg) rfl))
          (logsEnvOk_log_installation w pinfo true none))
        (logsEnvOk_of_not_log (Event.pipShow env pkg) rfl)
    · exact logsEnvOk_append _ _
        (logsEnvOk_append _ _
          (logsEnvOk_append _ _ hevs (logsEnvOk_of_not_log (Event.pipInstall env pkg) rfl))
          (logsEnvOk_log_installation w pinfo true none))
        (logsEnvOk_of_not_log (Event.pipShow env pkg) rfl)
    · exact logsEnvOk_append _ _
        (logsEnvOk_append _ _ hevs (logsEnvOk_of_not_log (Event.pipInstall env pkg) rfl))
        (logsEnvOk_log_installation w pinfo false (some stderr))
  | timeout =>
    exact logsEnvOk_append _ _
      (logsEnvOk_append _ _ hevs (logsEnvOk_of_not_log (Event.pipInstall env pkg) rfl))
      (logsEnvOk_log_installation w pinfo false _)
  | exn e =>
    exact logsEnvOk_append _ _
      (logsEnvOk_append _ _ hevs (logsEnvOk_of_not_log (Event.pipInstall env pkg) rfl))
      (logsEnvOk_log_installation w pinfo false _)

theorem install_stage3_logsOk (w : IWorld) (s : SysState) (env pkg : String)
    (version : Option String) (force : Bool) (evs : List Event) (hevs : logsEnvOk evs) :
    logsEnvOk (install_stage3 w s env pkg version force evs).2.2 := by
  unfold install_stage3
  cases hpi : get_package_info w pkg with
  | none => exact hevs
  | some pinfo =>
    dsimp only
    by_cases hf : force
    · rw [if_neg (by simp [hf])]
      exact install_subproc_logsOk w s env pkg version pinfo evs hevs
    · rw [if_pos (by simp [hf])]
      have hevs2 : logsEnvOk (evs ++ [Event.advisoryCheck pkg]) :=
        logsEnvOk_append _ _ hevs (logsEnvOk_of_not_log (Event.advisoryCheck pkg) rfl)
      split_ifs
      · exact hevs2
      · exact hevs2
      · exact install_subproc_logsOk w s env pkg version pinfo _ hevs2

theorem install_stage2_logsOk (w : IWorld) (s : SysState) (env pkg : String)
    (version : Option String) (force : Bool) (evs : List Event) (hevs : logsEnvOk evs) :
    logsEnvOk (install_stage2 w s env pkg version force evs).2.2 := by
  unfold install_stage2
  by_cases hf : force
  · rw [if_neg (by simp [hf])]
    exact install_stage3_logsOk w s env pkg version force evs hevs
  · rw [if_pos (by simp [hf])]
    have hevs2 : logsEnvOk (evs ++ [Event.pipShow env pkg]) :=
      logsEnvOk_append _ _ hevs (logsEnvOk_of_not_log (Event.pipShow env pkg) rfl)
    split_ifs
    · exact hevs2
    · exact install_stage3_logsOk w s env pkg version force _ hevs2

/-- C10: confirmed.  Every audit-log record appended during any
`install_package` run carries `environment = "venv_ninja_moltbot"`:
`_log_installation` hardcodes that literal, so the record never reflects the
caller-specified target environment. -/
theorem c10_log_env_constant (w : IWorld) (s : SysState) (n : String)
    (v : Option String) (e : Option String) (f : Bool) (rec : LogRecord)
    (h : Event.logAppend rec ∈ (install_package w s n v e f).2.2) :
    rec.environment = "venv_ninja_moltbot" := by
  refine (?_ : logsEnvOk (install_package w s n v e f).2.2) rec h
  unfold install_package
  cases e with
  | some en =>
    dsimp only
    split_ifs with hex
    · exact install_stage2_logsOk w s en n v f [] logsEnvOk_nil
    · exact logsEnvOk_nil
  | none =>
    dsimp only
    split_ifs with hd
    · exact install_stage2_logsOk w s defaultEnvName n v f [] logsEnvOk_nil
    · rcases hc : create_environment w s defaultEnvName none with ⟨⟨ok, msg⟩, s2, evs2⟩
      have hevs2 : logsEnvOk evs2 := by
        have := create_environment_logsOk w s defaultEnvName none
        rw [hc] at this
        exact this
      cases ok with
      | true =>
        dsimp only
        exact install_stage2_logsOk w s2 defaultEnvName n v f evs2 hevs2
      | false =>
        dsimp only
        exact hevs2

/-- C10, witness: the concrete forced install of `demo` into the
caller-specified environment `envB` appends exactly one record, and its
environment field is the constant, not `envB`. -/
theorem c10_log_env_constant_witness : logRecB.environment = "venv_ninja_moltbot" :=
  c10_log_env_constant baseWorld sEnvB "demo" none (some "envB") true logRecB (by decide)
